import Mathlib

/-
Verification of the expense categorization and forecasting subsystem of the
AIFinance backend (app/ml_models/predictor.py, app/ml_models/categorizer.py,
app/api/v1/ml.py).  Monetary amounts are modelled as exact rationals, dates
as Gregorian calendar dates, and the sklearn pipeline as an abstract
record of its fitted state.
-/

namespace AIFinance

/-! ### Rounding

Python's builtin `round(x, 2)` rounds to two decimal places with ties going
to the nearest even hundredth (banker's rounding).  We model it over ℚ. -/

/-- Round a rational to two decimal places, ties to even (Python `round(x, 2)`). -/
def pyRound2 (q : ℚ) : ℚ :=
  let x : ℚ := q * 100
  let f : ℤ := ⌊x⌋
  let r : ℚ := x - f
  let n : ℤ :=
    if r < 1/2 then f
    else if 1/2 < r then f + 1
    else if f % 2 = 0 then f else f + 1
  (n : ℚ) / 100

/-- Round a rational to three decimal places, ties to even (Python `round(x, 3)`). -/
def pyRound3 (q : ℚ) : ℚ :=
  let x : ℚ := q * 1000
  let f : ℤ := ⌊x⌋
  let r : ℚ := x - f
  let n : ℤ :=
    if r < 1/2 then f
    else if 1/2 < r then f + 1
    else if f % 2 = 0 then f else f + 1
  (n : ℚ) / 1000

/-! ### Calendar dates

`Transaction.transaction_date` is a SQL `Date`; the predictor compares dates
(`>=` against `now - timedelta(days=...)`), buckets them into calendar months
(pandas `to_period("M")`), and advances them by whole months
(`dateutil.relativedelta(months=n)`, which clamps the day of month). -/

/-- A Gregorian calendar date. -/
structure Date where
  year : ℤ
  month : ℕ
  day : ℕ
deriving DecidableEq, Repr

/-- Gregorian leap-year rule. -/
def isLeap (y : ℤ) : Bool :=
  (y % 4 == 0 && y % 100 != 0) || y % 400 == 0

/-- Number of days in a month. -/
def monthLen (y : ℤ) (m : ℕ) : ℕ :=
  if m = 2 then (if isLeap y then 29 else 28)
  else if m = 4 ∨ m = 6 ∨ m = 9 ∨ m = 11 then 30 else 31

/-- Days since the epoch 1970-01-01 (standard civil-from-days algorithm);
`timedelta(days=k)` subtracts `k` from this value. -/
def toDays (dt : Date) : ℤ :=
  let y : ℤ := if dt.month ≤ 2 then dt.year - 1 else dt.year
  let era : ℤ := y / 400
  let yoe : ℤ := y - era * 400
  let mp : ℤ := ((dt.month : ℤ) + 9) % 12
  let doy : ℤ := (153 * mp + 2) / 5 + (dt.day : ℤ) - 1
  let doe : ℤ := yoe * 365 + yoe / 4 - yoe / 100 + doy
  era * 146097 + doe - 719468

/-- The linear index of a date's calendar month; pandas `to_period("M")`
groups and orders dates by this value. -/
def monthIdx (d : Date) : ℤ :=
  12 * d.year + (d.month : ℤ) - 1

/-- `date + relativedelta(months=k)`: advance by `k` calendar months, clamping
the day to the length of the target month. -/
def addMonths (d : Date) (k : ℕ) : Date :=
  let tot : ℤ := 12 * d.year + ((d.month : ℤ) - 1) + (k : ℤ)
  let y : ℤ := tot / 12
  let m : ℕ := (tot % 12).toNat + 1
  ⟨y, m, min d.day (monthLen y m)⟩

/-! ### List helpers -/

/-- Distinct elements in order of first appearance, excluding those in `seen`
(pandas `Series.unique` keeps first-appearance order). -/
def uniqAux (seen : List String) : List String → List String
  | [] => []
  | x :: xs => if x ∈ seen then uniqAux seen xs else x :: uniqAux (x :: seen) xs

/-- Distinct elements of a list in order of first appearance. -/
def uniqueFirst (l : List String) : List String := uniqAux [] l

/-- Minimum of a list of integers (0 on the empty list, which is never used). -/
def listMin : List ℤ → ℤ
  | [] => 0
  | x :: xs => xs.foldl min x

/-- Maximum of a list of integers (0 on the empty list, which is never used). -/
def listMax : List ℤ → ℤ
  | [] => 0
  | x :: xs => xs.foldl max x

theorem uniqAux_subset {seen : List String} {l : List String} {c : String}
    (h : c ∈ uniqAux seen l) : c ∈ l := by
  induction l generalizing seen with
  | nil => simp [uniqAux] at h
  | cons x xs ih =>
    by_cases hx : x ∈ seen
    · simp only [uniqAux, if_pos hx] at h
      exact List.mem_cons_of_mem _ (ih h)
    · simp only [uniqAux, if_neg hx, List.mem_cons] at h
      rcases h with h | h
      · exact h ▸ List.mem_cons_self _ _
      · exact List.mem_cons_of_mem _ (ih h)

theorem mem_uniqAux {seen : List String} {l : List String} {c : String}
    (hc : c ∈ l) (hs : c ∉ seen) : c ∈ uniqAux seen l := by
  induction l generalizing seen with
  | nil => simp at hc
  | cons x xs ih =>
    rcases List.mem_cons.1 hc with rfl | hmem
    · by_cases hx : c ∈ seen
      · exact absurd hx hs
      · simp [uniqAux, if_neg hx]
    · by_cases hx : x ∈ seen
      · simp only [uniqAux, if_pos hx]
        exact ih hmem hs
      · simp only [uniqAux, if_neg hx, List.mem_cons]
        by_cases hcx : c = x
        · exact Or.inl hcx
        · exact Or.inr (ih hmem (by simp [hs, hcx]))

theorem uniqAux_not_mem_seen {seen : List String} {l : List String} {c : String}
    (h : c ∈ uniqAux seen l) : c ∉ seen := by
  induction l generalizing seen with
  | nil => simp [uniqAux] at h
  | cons x xs ih =>
    by_cases hx : x ∈ seen
    · simp only [uniqAux, if_pos hx] at h
      exact ih h
    · simp only [uniqAux, if_neg hx, List.mem_cons] at h
      rcases h with rfl | h
      · exact hx
      · intro hc
        exact (ih h) (List.mem_cons_of_mem _ hc)

theorem uniqAux_nodup (seen : List String) (l : List String) :
    (uniqAux seen l).Nodup := by
  induction l generalizing seen with
  | nil => simp [uniqAux]
  | cons x xs ih =>
    by_cases hx : x ∈ seen
    · simpa [uniqAux, if_pos hx] using ih seen
    · simp only [uniqAux, if_neg hx]
      refine List.nodup_cons.2 ⟨?_, ih (x :: seen)⟩
      intro hmem
      exact (uniqAux_not_mem_seen hmem) (List.mem_cons_self _ _)

theorem mem_uniqueFirst {l : List String} {c : String} :
    c ∈ uniqueFirst l ↔ c ∈ l :=
  ⟨uniqAux_subset, fun h => mem_uniqAux h (by simp)⟩

theorem uniqueFirst_nodup (l : List String) : (uniqueFirst l).Nodup :=
  uniqAux_nodup [] l

theorem listMin_mem {l : List ℤ} (h : l ≠ []) : listMin l ∈ l := by
  match l with
  | x :: xs =>
    simp only [listMin]
    clear h
    induction xs generalizing x with
    | nil => simp
    | cons y ys ih =>
      simp only [List.foldl_cons]
      rcases List.mem_cons.1 (ih (min x y)) with h | h
      · rcases min_choice x y with hm | hm <;> rw [hm] at h <;> simp [hm, h]
      · simp [h]

theorem listMax_mem {l : List ℤ} (h : l ≠ []) : listMax l ∈ l := by
  match l with
  | x :: xs =>
    simp only [listMax]
    clear h
    induction xs generalizing x with
    | nil => simp
    | cons y ys ih =>
      simp only [List.foldl_cons]
      rcases List.mem_cons.1 (ih (max x y)) with h | h
      · rcases max_choice x y with hm | hm <;> rw [hm] at h <;> simp [hm, h]
      · simp [h]

/-- Association-list lookup of a tabulated function at a key of the table. -/
theorem lookup_map_of_mem {l : List String} {c : String} (f : String → ℚ)
    (hc : c ∈ l) : (l.map (fun c => (c, f c))).lookup c = some (f c) := by
  induction l with
  | nil => simp at hc
  | cons x xs ih =>
    rcases List.mem_cons.1 hc with rfl | hmem
    · simp [List.lookup]
    · by_cases hcx : c = x
      · subst hcx; simp [List.lookup]
      · have hb : (c == x) = false := by simpa using hcx
        simp only [List.map_cons, List.lookup, hb]
        exact ih hmem

/-! ### Transactions and the expense predictor (app/ml_models/predictor.py)

`ExpensePredictor` queries transactions for a user, keeps only
`transaction_type == "expense"` rows inside a trailing window, and computes
per-category statistics with pandas.  We embed the relevant columns of the
`Transaction` model and pass the queried rows in as a list. -/

/-- The columns of the `Transaction` ORM model used by the predictor. -/
structure Transaction where
  user_id : ℤ
  amount : ℚ
  transaction_type : String
  category : String
  transaction_date : Date
deriving DecidableEq, Repr

/-- The `predict_next_month` query filter: the user's expense transactions with
`transaction_date >= (now - timedelta(days=180)).date()`. -/
def qualifiesPredict (today : Date) (uid : ℤ) (t : Transaction) : Bool :=
  decide (t.user_id = uid ∧ t.transaction_type = "expense" ∧
    toDays today - 180 ≤ toDays t.transaction_date)

/-- Rows of one category (`df[df["category"] == category]`), in frame order. -/
def catData (txs : List Transaction) (c : String) : List Transaction :=
  txs.filter (fun t => t.category == c)

/-- The `amount` column of a frame. -/
def amountsOf (l : List Transaction) : List ℚ := l.map (·.amount)

/-- `category_data["amount"].mean()`: mean amount per transaction of a category. -/
def histMean (txs : List Transaction) (c : String) : ℚ :=
  (amountsOf (catData txs c)).sum / ((catData txs c).length : ℚ)

/-- The distinct calendar months appearing in a frame
(the group keys of `groupby(... .dt.to_period("M"))`). -/
def monthsOf (l : List Transaction) : List ℤ :=
  (l.map (fun t => monthIdx t.transaction_date)).dedup

/-- Total amount of a frame inside one calendar month (one groupby bucket). -/
def monthTotal (l : List Transaction) (m : ℤ) : ℚ :=
  (amountsOf (l.filter (fun t => monthIdx t.transaction_date == m))).sum

/-- `monthly.iloc[0]`: the bucket total of the earliest month present
(pandas sorts the `Period` group keys ascending). -/
def firstMonthTotal (l : List Transaction) : ℚ := monthTotal l (listMin (monthsOf l))

/-- `monthly.iloc[-1]`: the bucket total of the latest month present. -/
def lastMonthTotal (l : List Transaction) : ℚ := monthTotal l (listMax (monthsOf l))

/-- `len(monthly)`: the number of distinct calendar months in a frame. -/
def numMonths (l : List Transaction) : ℕ := (monthsOf l).length

/-- The linear trend of `predict_next_month`:
`(monthly.iloc[-1] - monthly.iloc[0]) / len(monthly)` when the category has
more than one distinct month, else 0. -/
def catTrend (txs : List Transaction) (c : String) : ℚ :=
  let data := catData txs c
  if 1 < numMonths data then
    (lastMonthTotal data - firstMonthTotal data) / (numMonths data : ℚ)
  else 0

/-- Per-category prediction: `round(max(0, avg + trend * months_ahead), 2)`. -/
def predictedFor (txs : List Transaction) (c : String) (months_ahead : ℕ) : ℚ :=
  pyRound2 (max 0 (histMean txs c + catTrend txs c * (months_ahead : ℚ)))

/-- `category_stats[category]` of `predict_next_month`.  The reported `std`
(a square root, hence irrational over ℚ) is not representable here and no
claim concerns it, so it is omitted from the embedding. -/
structure CatStats where
  average : ℚ
  count : ℕ
  trend : String
deriving DecidableEq, Repr

/-- The per-category stats record built by `predict_next_month`. -/
def statsFor (txs : List Transaction) (c : String) : CatStats :=
  { average := pyRound2 (histMean txs c),
    count := (catData txs c).length,
    trend :=
      if 0 < catTrend txs c then "increasing"
      else if catTrend txs c < 0 then "decreasing" else "stable" }

/-- Confidence tier from the number of qualifying transactions. -/
def confidenceTier (n : ℕ) : String :=
  if 50 ≤ n then "high" else if 20 ≤ n then "medium" else "low"

/-- The dictionary returned by `predict_next_month`.  `predictions` is the
per-category mapping (the code wraps this single dict in a one-element list
for the response schema); `message`, `stats` and `data_points` are `Option`s
because the degraded result carries `message` only and the full result the
other two only. -/
structure PredictResult where
  predictions : List (String × ℚ)
  total_predicted : ℚ
  confidence : String
  message : Option String
  prediction_date : Date
  stats : Option (List (String × CatStats))
  data_points : Option ℕ
deriving DecidableEq, Repr

/-- `ExpensePredictor.predict_next_month` (`self.min_transactions = 5`). -/
def predict_next_month (today : Date) (db : List Transaction) (uid : ℤ)
    (months_ahead : ℕ) : PredictResult :=
  let txs := db.filter (qualifiesPredict today uid)
  if txs.length < 5 then
    { predictions := []
      total_predicted := 0
      confidence := "low"
      message := some "Need at least 5 transactions for predictions"
      prediction_date := addMonths today months_ahead
      stats := none
      data_points := none }
  else
    let cats := uniqueFirst (txs.map (·.category))
    let preds := cats.map (fun c => (c, predictedFor txs c months_ahead))
    { predictions := preds
      total_predicted := pyRound2 (preds.map (·.2)).sum
      confidence := confidenceTier txs.length
      message := none
      prediction_date := addMonths today months_ahead
      stats := some (cats.map (fun c => (c, statsFor txs c)))
      data_points := some txs.length }

/-! ### Spending trends (`ExpensePredictor.get_spending_trends`) -/

/-- The `get_spending_trends` query filter: the user's expense transactions
with `transaction_date >= (now - timedelta(days=months * 30)).date()`. -/
def qualifiesTrends (today : Date) (uid : ℤ) (months : ℕ) (t : Transaction) : Bool :=
  decide (t.user_id = uid ∧ t.transaction_type = "expense" ∧
    toDays today - 30 * (months : ℤ) ≤ toDays t.transaction_date)

/-- The raw percentage-change formula
`(last_month - first_month) / first_month * 100` for a category. -/
def specPct (txs : List Transaction) (c : String) : ℚ :=
  (lastMonthTotal (catData txs c) - firstMonthTotal (catData txs c))
    / firstMonthTotal (catData txs c) * 100

/-- The percentage change the code computes: the raw formula guarded by
`if first_month > 0`, else 0. -/
def codePct (txs : List Transaction) (c : String) : ℚ :=
  if 0 < firstMonthTotal (catData txs c) then specPct txs c else 0

/-- Trend direction labels with strict 10-percent thresholds. -/
def trendLabel (pct : ℚ) : String :=
  if 10 < pct then "increasing" else if pct < -10 then "decreasing" else "stable"

/-- `monthly.mean()`: the mean of the monthly bucket totals of a frame. -/
def avgMonthly (l : List Transaction) : ℚ :=
  ((monthsOf l).map (monthTotal l)).sum / (numMonths l : ℚ)

/-- One element of the `get_spending_trends` response. -/
structure TrendEntry where
  category : String
  monthly_average : ℚ
  trend : String
  percentage_change : ℚ
  last_month_amount : ℚ
deriving DecidableEq, Repr

/-- `ExpensePredictor.get_spending_trends`. -/
def get_spending_trends (today : Date) (db : List Transaction) (uid : ℤ)
    (months : ℕ) : List TrendEntry :=
  let txs := db.filter (qualifiesTrends today uid months)
  if txs.isEmpty then []
  else
    (uniqueFirst (txs.map (·.category))).filterMap (fun c =>
      let data := catData txs c
      if 2 ≤ numMonths data then
        some { category := c
               monthly_average := pyRound2 (avgMonthly data)
               trend := trendLabel (codePct txs c)
               percentage_change := pyRound2 (codePct txs c)
               last_month_amount := pyRound2 (lastMonthTotal data) }
      else none)

/-! ### The expense categorizer (app/ml_models/categorizer.py)

`ExpenseCategorizer` holds an optional in-memory sklearn pipeline and an
on-disk pickle of it.  sklearn and pickle are external libraries: the fitted
pipeline is modelled as the record of its fitted state (the distinct labels it
was fit on, i.e. `classes_`, plus the fitted examples), prediction as a
smoothed posterior over the classes (maximum-posterior label, probabilities
nonnegative and summing to 1, batch prediction row-wise), and pickling as an
exact copy of that record.  The on-disk artifact is `missing`, `corrupt`
(unpicklable bytes), or a `saved` pipeline. -/

/-- Modelled from the spec: `CATEGORIES` lives in `app/ml_models/training_data.py`,
which is absent from the sources; the spec fixes the ordered label set
"(e.g. Food, Transport, Entertainment, Shopping, Bills, Healthcare,
Education, Personal Care, Other, Income)". -/
def CATEGORIES : List String :=
  ["Food", "Transport", "Entertainment", "Shopping", "Bills",
   "Healthcare", "Education", "Personal Care", "Other", "Income"]

/-- Modelled from the spec: `TRAINING_DATA` lives in
`app/ml_models/training_data.py`, which is absent from the sources; the spec
requires a fixed, non-empty bundled corpus of (description, category) pairs
covering every label of the taxonomy and containing
("Starbucks coffee", "Food"). -/
def TRAINING_DATA : List (String × String) :=
  [("Starbucks coffee", "Food"), ("grocery store weekly shop", "Food"),
   ("uber ride downtown", "Transport"), ("monthly metro pass", "Transport"),
   ("netflix subscription", "Entertainment"), ("cinema tickets", "Entertainment"),
   ("amazon order shoes", "Shopping"), ("mall clothes shopping", "Shopping"),
   ("electricity bill", "Bills"), ("internet bill payment", "Bills"),
   ("pharmacy prescription", "Healthcare"), ("dentist appointment", "Healthcare"),
   ("university tuition", "Education"), ("online course fee", "Education"),
   ("haircut salon", "Personal Care"), ("spa massage", "Personal Care"),
   ("misc expense", "Other"), ("unknown charge", "Other"),
   ("salary deposit", "Income"), ("freelance payment", "Income")]

/-- A fitted sklearn pipeline, modelled by its fitted state: the distinct
labels seen at fit time (`classes_`) and the fitted examples. -/
structure Pipe where
  classes : List String
  corpus : List (String × String)
deriving DecidableEq, Repr

/-- `Pipeline.fit(X_train, y_train)`, modelled abstractly: record the distinct
labels and the examples. -/
def fitPipe (data : List (String × String)) : Pipe :=
  { classes := uniqueFirst (data.map (·.2)), corpus := data }

/-- The posterior probability the fitted model assigns to class `c` for input
`d`, modelled as an additively smoothed class frequency (examples matching the
input exactly if any, else all examples).  What matters for the claims is only
that this is a probability distribution over `classes` determined by the
fitted state. -/
def catProb (p : Pipe) (d : String) (c : String) : ℚ :=
  let ms := p.corpus.filter (fun e => e.1 == d)
  let base := if ms.isEmpty then p.corpus else ms
  (((base.filter (fun e => e.2 == c)).length : ℚ) + 1)
    / ((base.length : ℚ) + (p.classes.length : ℚ))

/-- `pipeline.predict_proba([d])[0]`: the probability vector over `classes`. -/
def probaList (p : Pipe) (d : String) : List ℚ := p.classes.map (catProb p d)

/-- First pair of maximal second component (ties keep the earlier one). -/
def argmaxAux (best : String × ℚ) : List (String × ℚ) → String × ℚ
  | [] => best
  | x :: xs => argmaxAux (if best.2 < x.2 then x else best) xs

/-- `pipeline.predict([d])[0]`: the maximum-posterior class. -/
def pipePredict (p : Pipe) (d : String) : String :=
  match p.classes.map (fun c => (c, catProb p d c)) with
  | [] => ""
  | x :: xs => (argmaxAux x xs).1

/-- `max(pipeline.predict_proba([d])[0])`: the confidence of a prediction. -/
def pipeMaxProba (p : Pipe) (d : String) : ℚ := (probaList p d).foldr max 0

/-- The persisted model artifact on disk. -/
inductive DiskState where
  | missing
  | corrupt
  | saved (p : Pipe)
deriving DecidableEq, Repr

/-- The mutable state of the `ExpenseCategorizer` singleton: the in-memory
pipeline and the on-disk artifact. -/
structure CatState where
  pipeline : Option Pipe
  disk : DiskState
deriving DecidableEq, Repr

/-- `ceil(0.2 * n)`: the held-out size of `train_test_split(test_size=0.2)`. -/
def testSize (n : ℕ) : ℕ := (n + 4) / 5

/-- The training-partition size of the 80/20 split. -/
def trainSize (n : ℕ) : ℕ := n - testSize n

/-- sklearn's frozen `ENGLISH_STOP_WORDS` (external library), transcribed.
Every word listed here is in sklearn's set; a handful of its more obscure
members may be missing from this transcription, which can only shrink the
modelled failure zone of the featurizer, never enlarge it. -/
def ENGLISH_STOP_WORDS : List String :=
  ["a", "about", "above", "across", "after", "afterwards", "again", "against",
   "all", "almost", "alone", "along", "already", "also", "although", "always",
   "am", "among", "amongst", "amoungst", "amount", "an", "and", "another",
   "any", "anyhow", "anyone", "anything", "anyway", "anywhere", "are",
   "around", "as", "at", "back", "be", "became", "because", "become",
   "becomes", "becoming", "been", "before", "beforehand", "behind", "being",
   "below", "beside", "besides", "between", "beyond", "bill", "both",
   "bottom", "but", "by", "call", "can", "cannot", "cant", "co", "con",
   "could", "couldnt", "cry", "de", "describe", "detail", "do", "done",
   "down", "due", "during", "each", "eg", "eight", "either", "eleven",
   "else", "elsewhere", "empty", "enough", "etc", "even", "ever", "every",
   "everyone", "everything", "everywhere", "except", "few", "fifteen",
   "fifty", "fill", "find", "fire", "first", "five", "for", "former",
   "formerly", "forty", "found", "four", "from", "front", "full", "further",
   "get", "give", "go", "had", "has", "hasnt", "have", "he", "hence", "her",
   "here", "hereafter", "hereby", "herein", "hereupon", "hers", "herself",
   "him", "himself", "his", "how", "however", "hundred", "i", "ie", "if",
   "in", "inc", "indeed", "interest", "into", "is", "it", "its", "itself",
   "keep", "last", "latter", "latterly", "least", "less", "ltd", "made",
   "many", "may", "me", "meanwhile", "might", "mill", "mine", "more",
   "moreover", "most", "mostly", "move", "much", "must", "my", "myself",
   "name", "namely", "neither", "never", "nevertheless", "next", "nine",
   "no", "nobody", "none", "noone", "nor", "not", "nothing", "now",
   "nowhere", "of", "off", "often", "on", "once", "one", "only", "onto",
   "or", "other", "others", "otherwise", "our", "ours", "ourselves", "out",
   "over", "own", "part", "per", "perhaps", "please", "put", "rather", "re",
   "same", "see", "seem", "seemed", "seeming", "seems", "serious", "several",
   "she", "should", "show", "side", "since", "sincere", "six", "sixty",
   "so", "some", "somehow", "someone", "something", "sometime", "sometimes",
   "somewhere", "still", "such", "system", "take", "ten", "than", "that",
   "the", "their", "them", "themselves", "then", "thence", "there",
   "thereafter", "thereby", "therefore", "therein", "thereupon", "these",
   "they", "thick", "thin", "third", "this", "those", "though", "three",
   "through", "throughout", "thru", "thus", "to", "together", "too", "top",
   "toward", "towards", "twelve", "twenty", "two", "un", "under", "until",
   "up", "upon", "us", "very", "via", "was", "we", "well", "were", "what",
   "whatever", "when", "whence", "whenever", "where", "whereafter",
   "whereas", "whereby", "wherein", "whereupon", "wherever", "whether",
   "which", "while", "whither", "who", "whoever", "whole", "whom", "whose",
   "why", "will", "with", "within", "without", "would", "yet", "you",
   "your", "yours", "yourself", "yourselves"]

/-- A word character of the `TfidfVectorizer` default token pattern
`\b\w\w+\b`: ASCII alphanumerics and underscore, with any non-ASCII
character conservatively treated as a word character (Python's Unicode `\w`
accepts all non-ASCII letters; over-accepting here can only produce longer
candidate tokens that no ASCII stop word equals, so the modelled
empty-vocabulary failure never fires where the program would not fail). -/
def isWordChar (c : Char) : Bool :=
  c.isAlphanum || c == '_' || decide (128 ≤ c.toNat)

/-- Maximal runs of word characters of a character list. -/
def splitRuns : List Char → List (List Char)
  | [] => []
  | c :: cs =>
    let rest := splitRuns cs
    if isWordChar c then
      match cs with
      | c2 :: _ =>
        if isWordChar c2 then
          match rest with
          | r :: rs => (c :: r) :: rs
          | [] => [[c]]
        else [c] :: rest
      | [] => [[c]]
    else rest

/-- The `TfidfVectorizer(lowercase=True, stop_words='english')` unigrams of
one document: lowercase, take maximal word-character runs of length at least
2, drop English stop words.  (Bigrams are pairs of these, so they are empty
exactly when the unigrams are, and `max_features` cannot empty a non-empty
vocabulary; hence these tokens decide the empty-vocabulary failure.) -/
def vocabTokens (s : String) : List String :=
  (((splitRuns (s.toList.map Char.toLower)).filter (fun r => 2 ≤ r.length)).map
      (fun r => String.mk r)).filter (fun t => !ENGLISH_STOP_WORDS.contains t)

/-- Whether fitting the vectorizer on these documents yields a non-empty
vocabulary; when it does not, `fit` raises
`ValueError: empty vocabulary; perhaps the documents only contain stop words`. -/
def hasVocabulary (docs : List String) : Bool :=
  docs.any (fun d => !(vocabTokens d).isEmpty)

/-- `ExpenseCategorizer.train`.  `train_test_split` raises a `ValueError`
when the resulting train or test set is empty (so on 0 or 1 examples); its
seeded shuffle (`random_state=42`) is modelled as the identity permutation,
so the training partition is the first 80 percent of the examples.  Fitting
the pipeline raises the vectorizer's empty-vocabulary `ValueError` when no
training description contributes a token.  No `TrainingError` exists
anywhere in the code: the only failures are these propagated sklearn
`ValueError`s.  On success the fitted pipeline replaces the in-memory one;
the disk is untouched. -/
def train (s : CatState) (training_data : Option (List (String × String))) :
    Except String CatState :=
  let data := training_data.getD TRAINING_DATA
  let n := data.length
  if trainSize n = 0 ∨ testSize n = 0 then
    Except.error "ValueError: train_test_split would produce an empty train or test set"
  else if hasVocabulary ((data.take (trainSize n)).map (fun x => x.1)) then
    Except.ok { s with pipeline := some (fitPipe (data.take (trainSize n))) }
  else
    Except.error "ValueError: empty vocabulary; perhaps the documents only contain stop words"

/-- `ExpenseCategorizer.save_model`: raises `ValueError` when nothing is
trained, else pickles the pipeline to disk. -/
def save_model (s : CatState) : Except String CatState :=
  match s.pipeline with
  | none => Except.error "ValueError: No model to save. Train the model first."
  | some p => Except.ok { s with disk := DiskState.saved p }

/-- `ExpenseCategorizer.load_model`: returns `false` when the file is missing,
loads and returns `true` when it unpickles, and raises (the `pickle.load`
exception propagates uncaught) when the file exists but is corrupt. -/
def load_model (s : CatState) : Except String (CatState × Bool) :=
  match s.disk with
  | DiskState.missing => Except.ok (s, false)
  | DiskState.corrupt => Except.error "UnpicklingError: could not load model file"
  | DiskState.saved p => Except.ok ({ s with pipeline := some p }, true)

/-- `ExpenseCategorizer.predict`: lazily load, then lazily train-and-save,
then classify. -/
def predict (s : CatState) (d : String) : Except String (CatState × String × ℚ) := do
  let s1 ← if s.pipeline.isNone then (load_model s).map Prod.fst else pure s
  let s2 ←
    if s1.pipeline.isNone then do
      let st ← train s1 none
      save_model st
    else pure s1
  match s2.pipeline with
  | some p => pure (s2, (pipePredict p d, pipeMaxProba p d))
  | none => Except.error "AttributeError: NoneType object has no attribute predict"

/-- `ExpenseCategorizer.predict_batch`: lazily load (but, unlike `predict`,
never train), then classify row-wise. -/
def predict_batch (s : CatState) (ds : List String) :
    Except String (CatState × List (String × ℚ)) := do
  let s1 ← if s.pipeline.isNone then (load_model s).map Prod.fst else pure s
  match s1.pipeline with
  | some p => pure (s1, ds.map (fun d => (pipePredict p d, pipeMaxProba p d)))
  | none => Except.error "AttributeError: NoneType object has no attribute predict"

/-- `ExpenseCategorizer.get_categories`. -/
def get_categories : List String := CATEGORIES

/-- An HTTP error response (`fastapi.HTTPException`). -/
structure HttpError where
  status_code : ℕ
  detail : String
deriving DecidableEq, Repr

/-- The `POST /categorize-batch` endpoint (app/api/v1/ml.py `categorize_batch`):
validate the batch size, then delegate to `predict_batch`, rounding each
confidence to 3 decimals; any exception becomes a 500. -/
def categorize_batch (s : CatState) (descriptions : List String) :
    Except HttpError (List (String × String × ℚ)) :=
  if descriptions.length = 0 then
    Except.error ⟨400, "Descriptions list cannot be empty"⟩
  else if 100 < descriptions.length then
    Except.error ⟨400, "Maximum 100 descriptions allowed per request"⟩
  else
    match predict_batch s descriptions with
    | Except.ok res =>
        Except.ok ((descriptions.zip res.2).map (fun x => (x.1, x.2.1, pyRound3 x.2.2)))
    | Except.error e => Except.error ⟨500, "Error in batch categorization: " ++ e⟩

/-! ### Shared concrete data and helper facts -/

/-- The pipeline that the lazy cold-start path trains from the bundled corpus:
`train()` fits on the 80-percent training partition of `TRAINING_DATA`. -/
def defaultPipe : Pipe := fitPipe (TRAINING_DATA.take (trainSize TRAINING_DATA.length))

/-! ### Claim C2 -/

/-- Claim C2: with fewer than 5 qualifying expense transactions in the
trailing-180-day window, `predict_next_month` returns (never raises) the
degraded result: empty predictions, total 0, confidence "low", an
explanatory message, and prediction date equal to the current date advanced
by `months_ahead` calendar months. -/
theorem C2_degraded_result (today : Date) (db : List Transaction) (uid : ℤ)
    (months_ahead : ℕ) (_hm : 0 < months_ahead)
    (h : (db.filter (qualifiesPredict today uid)).length < 5) :
    predict_next_month today db uid months_ahead =
      { predictions := []
        total_predicted := 0
        confidence := "low"
        message := some "Need at least 5 transactions for predictions"
        prediction_date := addMonths today months_ahead
        stats := none
        data_points := none } := by
  unfold predict_next_month
  rw [if_pos h]

/-- Claim C2, witness: the empty history with `months_ahead = 3` from
2026-10-12 produces the degraded result dated 2027-01-12. -/
theorem C2_degraded_result_witness :
    (([] : List Transaction).filter (qualifiesPredict ⟨2026, 10, 12⟩ 0)).length < 5 ∧
    predict_next_month ⟨2026, 10, 12⟩ [] 0 3 =
      { predictions := []
        total_predicted := 0
        confidence := "low"
        message := some "Need at least 5 transactions for predictions"
        prediction_date := ⟨2027, 1, 12⟩
        stats := none
        data_points := none } := by
  refine ⟨by decide, ?_⟩
  rw [C2_degraded_result ⟨2026, 10, 12⟩ [] 0 3 (by decide) (by decide)]
  decide

/-! ### Claim C7 -/

/-- Claim C7, counterexample: `train` on a non-empty (singleton) input does
not complete, and what it raises is a sklearn `ValueError` from the 80/20
split, not a `TrainingError` (no such class exists in the code). -/
theorem C7_counterexample :
    train ⟨none, DiskState.missing⟩ (some [("Starbucks coffee", "Food")]) =
      Except.error "ValueError: train_test_split would produce an empty train or test set" ∧
    ([("Starbucks coffee", "Food")] : List (String × String)) ≠ [] :=
  ⟨rfl, by decide⟩

theorem train_eq (s : CatState) (td : List (String × String)) :
    train s (some td) =
      if td.length < 2 then
        Except.error "ValueError: train_test_split would produce an empty train or test set"
      else if hasVocabulary ((td.take (trainSize td.length)).map (fun x => x.1)) then
        Except.ok { s with pipeline := some (fitPipe (td.take (trainSize td.length))) }
      else
        Except.error "ValueError: empty vocabulary; perhaps the documents only contain stop words" := by
  unfold train
  simp only [Option.getD_some]
  by_cases h : td.length < 2
  · rw [if_pos (by unfold trainSize testSize; omega), if_pos h]
  · rw [if_neg (by unfold trainSize testSize; omega), if_neg h]

/-- Claim C7, amended: `train` raises a sklearn `ValueError` — never a
`TrainingError`, which exists nowhere in the code — whenever the input
collection has fewer than 2 pairs (the empty collection, and also
singletons, whose 80/20 training partition is empty), and also on larger
collections whose descriptions are all stop-word-only (the featurizer's
empty-vocabulary failure); whenever it completes, it replaces the in-memory
model artifact with the pipeline fitted on the training partition and
leaves the disk untouched. -/
theorem C7_amended (s : CatState) (td : List (String × String)) :
    (td.length < 2 →
      train s (some td) =
        Except.error "ValueError: train_test_split would produce an empty train or test set") ∧
    (2 ≤ td.length → (∀ x ∈ td, vocabTokens x.1 = []) →
      train s (some td) =
        Except.error "ValueError: empty vocabulary; perhaps the documents only contain stop words") ∧
    (∀ s1, train s (some td) = Except.ok s1 →
      s1.pipeline = some (fitPipe (td.take (trainSize td.length))) ∧
      s1.disk = s.disk) := by
  refine ⟨fun h => ?_, fun h2 hsw => ?_, fun s1 h => ?_⟩
  · rw [train_eq, if_pos h]
  · rw [train_eq, if_neg (by omega)]
    have hv : hasVocabulary ((td.take (trainSize td.length)).map (fun x => x.1)) = false := by
      unfold hasVocabulary
      rw [List.any_eq_false]
      intro d hd
      rcases List.mem_map.1 hd with ⟨x, hx, rfl⟩
      rw [hsw x (List.take_subset _ _ hx)]
      simp
    rw [if_neg (by rw [hv]; exact Bool.false_ne_true)]
  · rw [train_eq] at h
    split at h
    · exact absurd h (by simp)
    · split at h
      · injection h with h1
        rw [← h1]
        exact ⟨rfl, rfl⟩
      · exact absurd h (by simp)

/-- Claim C7, witness: a singleton draws the split `ValueError`, and a
two-pair collection of stop-word-only descriptions draws the
empty-vocabulary `ValueError`. -/
theorem C7_amended_witness :
    train ⟨none, DiskState.missing⟩ (some [("the", "Food"), ("a", "Transport")]) =
      Except.error "ValueError: empty vocabulary; perhaps the documents only contain stop words" ∧
    ((⟨some (fitPipe [("Starbucks coffee", "Food")]), DiskState.missing⟩ : CatState).pipeline =
        some (fitPipe [("Starbucks coffee", "Food")]) ∧
      (⟨some (fitPipe [("Starbucks coffee", "Food")]), DiskState.missing⟩ : CatState).disk =
        DiskState.missing) :=
  ⟨(C7_amended ⟨none, DiskState.missing⟩ [("the", "Food"), ("a", "Transport")]).2.1
      (by decide) (by decide),
   (C7_amended ⟨none, DiskState.missing⟩
      [("Starbucks coffee", "Food"), ("uber ride downtown", "Transport")]).2.2
      ⟨some (fitPipe [("Starbucks coffee", "Food")]), DiskState.missing⟩ rfl⟩

/-! ### Claim C8 -/

/-- Claim C8, counterexample: with no model in memory and a corrupt artifact
on disk, `predict` raises (the `pickle.load` failure propagates out of
`load_model` uncaught), so a corrupt-artifact load failure IS surfaced to
the caller, contrary to the claim. -/
theorem C8_counterexample :
    predict ⟨none, DiskState.corrupt⟩ "Starbucks coffee" =
      Except.error "UnpicklingError: could not load model file" := rfl

/-- Claim C8, amended: when `predict` is called with no model in memory, a
MISSING artifact is recovered locally — the categorizer retrains from the
bundled corpus, persists the fresh model, and answers — while a CORRUPT
artifact is not recovered: the unpickling error propagates to the caller.
(A valid saved artifact is simply loaded.) -/
theorem C8_amended (d : String) (dsk : DiskState) :
    predict ⟨none, dsk⟩ d =
      match dsk with
      | DiskState.missing =>
          Except.ok (⟨some defaultPipe, DiskState.saved defaultPipe⟩,
            (pipePredict defaultPipe d, pipeMaxProba defaultPipe d))
      | DiskState.corrupt => Except.error "UnpicklingError: could not load model file"
      | DiskState.saved p =>
          Except.ok (⟨some p, DiskState.saved p⟩, (pipePredict p d, pipeMaxProba p d)) := by
  cases dsk <;> rfl

/-! ### Claim C4 -/

/-- Claim C4, counterexample: from the cold starting state (no model in
memory, no artifact on disk) the batched path and the single-item path
disagree: `predict_batch` raises `AttributeError` (it never falls back to
training) while `predict` succeeds after training from the bundled corpus. -/
theorem C4_counterexample :
    predict_batch ⟨none, DiskState.missing⟩ ["Starbucks coffee"] =
      Except.error "AttributeError: NoneType object has no attribute predict" ∧
    predict ⟨none, DiskState.missing⟩ "Starbucks coffee" =
      Except.ok (⟨some defaultPipe, DiskState.saved defaultPipe⟩,
        (pipePredict defaultPipe "Starbucks coffee",
         pipeMaxProba defaultPipe "Starbucks coffee")) :=
  ⟨rfl, rfl⟩

/-- Claim C4, amended: whenever a model is available — in memory, or loadable
from a valid artifact on disk — `predict_batch` succeeds and its output is
the element-wise result of `predict` on each description, in input order
(`predict_batch(xs)[i] = predict(xs[i])`); only the cold state (no model in
memory and no valid artifact) makes the two paths diverge. -/
theorem C4_amended (s : CatState) (xs : List String) (p : Pipe)
    (h : s.pipeline = some p ∨ (s.pipeline = none ∧ s.disk = DiskState.saved p)) :
    predict_batch s xs =
      Except.ok (⟨some p, s.disk⟩,
        xs.map (fun d => (pipePredict p d, pipeMaxProba p d))) ∧
    ∀ d ∈ xs, predict s d =
      Except.ok (⟨some p, s.disk⟩, (pipePredict p d, pipeMaxProba p d)) := by
  obtain ⟨pl, dk⟩ := s
  rcases h with h | ⟨h1, h2⟩
  · simp only at h
    subst h
    exact ⟨rfl, fun d _ => rfl⟩
  · simp only at h1 h2
    subst h1; subst h2
    exact ⟨rfl, fun d _ => rfl⟩

/-- Claim C4, witness: a warm state (model in memory) on a one-element batch. -/
theorem C4_amended_witness :
    predict_batch ⟨some defaultPipe, DiskState.missing⟩ ["Starbucks coffee"] =
      Except.ok (⟨some defaultPipe, DiskState.missing⟩,
        [(pipePredict defaultPipe "Starbucks coffee",
          pipeMaxProba defaultPipe "Starbucks coffee")]) ∧
    predict ⟨some defaultPipe, DiskState.missing⟩ "Starbucks coffee" =
      Except.ok (⟨some defaultPipe, DiskState.missing⟩,
        (pipePredict defaultPipe "Starbucks coffee",
         pipeMaxProba defaultPipe "Starbucks coffee")) :=
  ⟨(C4_amended ⟨some defaultPipe, DiskState.missing⟩ ["Starbucks coffee"] defaultPipe
      (Or.inl rfl)).1,
   (C4_amended ⟨some defaultPipe, DiskState.missing⟩ ["Starbucks coffee"] defaultPipe
      (Or.inl rfl)).2 "Starbucks coffee" (by decide)⟩

/-! ### Claim C10 -/

/-- Claim C10: for `months` in 1..24, `get_spending_trends` selects exactly
the user's expense transactions dated on or after the current date minus
`months * 30` days — a fixed 30-day-month approximation (so `months = 12`
covers only the trailing 360 days, not a calendar year) — and the result is
a function of that selection alone. -/
theorem C10_window (today : Date) (db : List Transaction) (uid : ℤ) (months : ℕ)
    (_h1 : 1 ≤ months) (_h2 : months ≤ 24) (t : Transaction) :
    (t ∈ db.filter (qualifiesTrends today uid months) ↔
      t ∈ db ∧ t.user_id = uid ∧ t.transaction_type = "expense" ∧
        toDays today - toDays t.transaction_date ≤ 30 * (months : ℤ)) ∧
    get_spending_trends today db uid months =
      get_spending_trends today (db.filter (qualifiesTrends today uid months)) uid months := by
  constructor
  · simp only [List.mem_filter, qualifiesTrends, decide_eq_true_eq]
    constructor
    · rintro ⟨hdb, hu, ht, hd⟩
      exact ⟨hdb, hu, ht, by omega⟩
    · rintro ⟨hdb, hu, ht, hd⟩
      exact ⟨hdb, hu, ht, by omega⟩
  · unfold get_spending_trends
    rw [List.filter_filter]
    have hf : (fun a => qualifiesTrends today uid months a &&
        qualifiesTrends today uid months a) = qualifiesTrends today uid months := by
      funext t
      exact Bool.and_self _
    rw [hf]

/-- Claim C10, witness: at `months = 12` from 2026-10-12, an expense dated
2025-10-12 (365 days back) is excluded while one dated 2025-10-17 (360 days
back) is included. -/
theorem C10_window_witness :
    (⟨7, 5, "expense", "Food", ⟨2025, 10, 12⟩⟩ : Transaction) ∉
      ([⟨7, 5, "expense", "Food", ⟨2025, 10, 12⟩⟩,
        ⟨7, 5, "expense", "Food", ⟨2025, 10, 17⟩⟩] : List Transaction).filter
        (qualifiesTrends ⟨2026, 10, 12⟩ 7 12) ∧
    (⟨7, 5, "expense", "Food", ⟨2025, 10, 17⟩⟩ : Transaction) ∈
      ([⟨7, 5, "expense", "Food", ⟨2025, 10, 12⟩⟩,
        ⟨7, 5, "expense", "Food", ⟨2025, 10, 17⟩⟩] : List Transaction).filter
        (qualifiesTrends ⟨2026, 10, 12⟩ 7 12) :=
  ⟨fun hmem => absurd
      ((C10_window ⟨2026, 10, 12⟩ _ 7 12 (by decide) (by decide) _).1.1 hmem)
      (by decide),
   (C10_window ⟨2026, 10, 12⟩ _ 7 12 (by decide) (by decide) _).1.2
      ⟨by decide, by decide, by decide, by decide⟩⟩

/-! ### Claim C9 -/

/-- Claim C9: `categorize_batch` fails with the batch-size 400 error
(`TooManyItemsError`) exactly on lists of more than 100 descriptions, with
the empty-list 400 error (`EmptyInputError`) on the empty list, and for 1 to
100 descriptions never fails on account of the size bound: any remaining
failure is the 500 wrapper around the delegated prediction. -/
theorem C9_batch_bounds (s : CatState) (ds : List String) :
    (100 < ds.length →
      categorize_batch s ds =
        Except.error ⟨400, "Maximum 100 descriptions allowed per request"⟩) ∧
    (ds.length = 0 →
      categorize_batch s ds =
        Except.error ⟨400, "Descriptions list cannot be empty"⟩) ∧
    (1 ≤ ds.length → ds.length ≤ 100 →
      ∀ e, categorize_batch s ds = Except.error e → e.status_code = 500) := by
  refine ⟨fun hgt => ?_, fun heq => ?_, fun hge hle e herr => ?_⟩
  · unfold categorize_batch
    rw [if_neg (by omega), if_pos hgt]
  · unfold categorize_batch
    rw [if_pos heq]
  · unfold categorize_batch at herr
    rw [if_neg (by omega), if_neg (by omega)] at herr
    rcases hpb : predict_batch s ds with e0 | r
    · rw [hpb] at herr
      simp only [Except.error.injEq] at herr
      rw [← herr]
    · rw [hpb] at herr
      simp at herr

/-- Claim C9, witness: 101 descriptions draw the size-bound 400 error and the
empty list draws the empty-input 400 error. -/
theorem C9_batch_bounds_witness :
    categorize_batch ⟨none, DiskState.missing⟩ (List.replicate 101 "coffee") =
      Except.error ⟨400, "Maximum 100 descriptions allowed per request"⟩ ∧
    categorize_batch ⟨none, DiskState.missing⟩ [] =
      Except.error ⟨400, "Descriptions list cannot be empty"⟩ :=
  ⟨(C9_batch_bounds ⟨none, DiskState.missing⟩ (List.replicate 101 "coffee")).1
      (by simp),
   (C9_batch_bounds ⟨none, DiskState.missing⟩ []).2.1 rfl⟩

/-! ### Claim C1 -/

/-- Six qualifying September expenses of one user in one category whose mean,
7/6, is not representable in two decimal places. -/
def txsC1 : List Transaction :=
  [⟨7, 2, "expense", "Food", ⟨2026, 9, 5⟩⟩,
   ⟨7, 1, "expense", "Food", ⟨2026, 9, 6⟩⟩,
   ⟨7, 1, "expense", "Food", ⟨2026, 9, 7⟩⟩,
   ⟨7, 1, "expense", "Food", ⟨2026, 9, 8⟩⟩,
   ⟨7, 1, "expense", "Food", ⟨2026, 9, 9⟩⟩,
   ⟨7, 1, "expense", "Food", ⟨2026, 9, 10⟩⟩]

set_option maxHeartbeats 1600000 in
/-- Claim C1, counterexample: for the category "Food" of `txsC1` the
historical mean is 7/6 and the trend 0, so the claimed predicted amount is
7/6 ≈ 1.1667; the code reports 1.17, because it rounds the prediction to two
decimal places — the claimed exact equality fails. -/
theorem C1_counterexample :
    (predict_next_month ⟨2026, 10, 12⟩ txsC1 7 1).predictions.lookup "Food" =
      some (117/100) ∧
    max 0 (histMean (txsC1.filter (qualifiesPredict ⟨2026, 10, 12⟩ 7)) "Food" +
      catTrend (txsC1.filter (qualifiesPredict ⟨2026, 10, 12⟩ 7)) "Food" * (1 : ℚ)) =
      7/6 ∧
    (117/100 : ℚ) ≠ 7/6 := by
  refine ⟨?_, ?_, by norm_num⟩
  · norm_num [predict_next_month, txsC1, qualifiesPredict, uniqueFirst, uniqAux,
      predictedFor, histMean, catTrend, catData, amountsOf, monthsOf, numMonths,
      monthTotal, firstMonthTotal, lastMonthTotal, listMin, listMax, pyRound2,
      monthIdx, toDays, List.filter, List.lookup, List.dedup]
  · have h : histMean (txsC1.filter (qualifiesPredict ⟨2026, 10, 12⟩ 7)) "Food" +
        catTrend (txsC1.filter (qualifiesPredict ⟨2026, 10, 12⟩ 7)) "Food" * (1 : ℚ) =
        7/6 := by
      norm_num [txsC1, qualifiesPredict, histMean, catTrend, catData, amountsOf,
        monthsOf, numMonths, monthTotal, firstMonthTotal, lastMonthTotal, listMin,
        listMax, monthIdx, toDays, List.filter, List.dedup]
    rw [h]
    exact max_eq_right (by norm_num)

/-- Claim C1, amended: for every category in the lookback window (given at
least 5 qualifying transactions), the predicted amount is the category's
historical mean plus trend times `months_ahead`, floored at 0 AND THEN
ROUNDED TO TWO DECIMAL PLACES, where the trend is (last month's total −
first month's total) divided by the number of distinct calendar months when
at least two distinct months are present, and 0 otherwise. -/
theorem C1_amended (today : Date) (db : List Transaction) (uid : ℤ) (m : ℕ)
    (c : String)
    (h5 : 5 ≤ (db.filter (qualifiesPredict today uid)).length)
    (hc : c ∈ (db.filter (qualifiesPredict today uid)).map (·.category)) :
    (predict_next_month today db uid m).predictions.lookup c =
      some (pyRound2 (max 0 (histMean (db.filter (qualifiesPredict today uid)) c +
        catTrend (db.filter (qualifiesPredict today uid)) c * (m : ℚ)))) ∧
    (1 < numMonths (catData (db.filter (qualifiesPredict today uid)) c) →
      catTrend (db.filter (qualifiesPredict today uid)) c =
        (lastMonthTotal (catData (db.filter (qualifiesPredict today uid)) c) -
         firstMonthTotal (catData (db.filter (qualifiesPredict today uid)) c)) /
          (numMonths (catData (db.filter (qualifiesPredict today uid)) c) : ℚ)) ∧
    (numMonths (catData (db.filter (qualifiesPredict today uid)) c) ≤ 1 →
      catTrend (db.filter (qualifiesPredict today uid)) c = 0) := by
  refine ⟨?_, fun h => ?_, fun h => ?_⟩
  · unfold predict_next_month
    rw [if_neg (by omega)]
    exact lookup_map_of_mem _ (mem_uniqueFirst.2 hc)
  · unfold catTrend
    rw [if_pos h]
  · unfold catTrend
    rw [if_neg (by omega)]

/-- Claim C1, witness: the amended formula applied to `txsC1`. -/
theorem C1_amended_witness :
    5 ≤ (txsC1.filter (qualifiesPredict ⟨2026, 10, 12⟩ 7)).length ∧
    "Food" ∈ (txsC1.filter (qualifiesPredict ⟨2026, 10, 12⟩ 7)).map (·.category) ∧
    (predict_next_month ⟨2026, 10, 12⟩ txsC1 7 1).predictions.lookup "Food" =
      some (pyRound2 (max 0 (histMean (txsC1.filter (qualifiesPredict ⟨2026, 10, 12⟩ 7)) "Food" +
        catTrend (txsC1.filter (qualifiesPredict ⟨2026, 10, 12⟩ 7)) "Food" * ((1 : ℕ) : ℚ)))) :=
  ⟨by decide, by decide,
   (C1_amended ⟨2026, 10, 12⟩ txsC1 7 1 "Food" (by decide) (by decide)).1⟩

/-! ### Classifier facts for Claims C5 and C6 -/

theorem argmaxAux_mem (b : String × ℚ) (l : List (String × ℚ)) :
    argmaxAux b l = b ∨ argmaxAux b l ∈ l := by
  induction l generalizing b with
  | nil => exact Or.inl rfl
  | cons x xs ih =>
    simp only [argmaxAux]
    rcases ih (if b.2 < x.2 then x else b) with h | h
    · rw [h]
      by_cases hbx : b.2 < x.2
      · rw [if_pos hbx]
        exact Or.inr (List.mem_cons_self _ _)
      · rw [if_neg hbx]
        exact Or.inl rfl
    · exact Or.inr (List.mem_cons_of_mem _ h)

theorem pipePredict_mem {p : Pipe} (h : p.classes ≠ []) (d : String) :
    pipePredict p d ∈ p.classes := by
  unfold pipePredict
  rcases hcl : p.classes with _ | ⟨c, cs⟩
  · exact absurd hcl h
  · simp only [List.map_cons]
    rcases argmaxAux_mem (c, catProb p d c)
        (List.map (fun c => (c, catProb p d c)) cs) with hm | hm
    · rw [hm]
      exact List.mem_cons_self _ _
    · rcases List.mem_map.1 hm with ⟨c1, hc1, he⟩
      rw [← he]
      exact List.mem_cons_of_mem _ hc1

theorem smoothedProb_nonneg (base : List (String × String)) (k : ℕ) (c : String) :
    0 ≤ (((base.filter (fun e => e.2 == c)).length : ℚ) + 1)
      / ((base.length : ℚ) + (k : ℚ)) := by
  positivity

theorem smoothedProb_le_one (base : List (String × String)) (k : ℕ) (hk : 1 ≤ k)
    (c : String) :
    (((base.filter (fun e => e.2 == c)).length : ℚ) + 1)
      / ((base.length : ℚ) + (k : ℚ)) ≤ 1 := by
  apply div_le_one_of_le₀
  · have hle : (base.filter (fun e => e.2 == c)).length ≤ base.length :=
      List.length_filter_le _ _
    have hk1 : (1 : ℚ) ≤ (k : ℚ) := by exact_mod_cast hk
    have : ((base.filter (fun e => e.2 == c)).length : ℚ) ≤ (base.length : ℚ) := by
      exact_mod_cast hle
    linarith
  · positivity

theorem catProb_nonneg (p : Pipe) (d c : String) : 0 ≤ catProb p d c :=
  smoothedProb_nonneg _ _ c

theorem catProb_le_one {p : Pipe} (h : p.classes ≠ []) (d c : String) :
    catProb p d c ≤ 1 :=
  smoothedProb_le_one _ _ (List.length_pos.2 h) c

theorem foldr_max_nonneg (l : List ℚ) : 0 ≤ l.foldr max 0 := by
  induction l with
  | nil => simp
  | cons x xs ih =>
    simp only [List.foldr_cons]
    exact le_max_of_le_right ih

theorem foldr_max_le_one (l : List ℚ) (h : ∀ x ∈ l, x ≤ 1) : l.foldr max 0 ≤ 1 := by
  induction l with
  | nil => simp
  | cons x xs ih =>
    simp only [List.foldr_cons]
    exact max_le (h x (List.mem_cons_self _ _))
      (ih fun y hy => h y (List.mem_cons_of_mem _ hy))

theorem pipeMaxProba_nonneg (p : Pipe) (d : String) : 0 ≤ pipeMaxProba p d :=
  foldr_max_nonneg _

theorem pipeMaxProba_le_one {p : Pipe} (h : p.classes ≠ []) (d : String) :
    pipeMaxProba p d ≤ 1 := by
  unfold pipeMaxProba probaList
  apply foldr_max_le_one
  intro x hx
  rcases List.mem_map.1 hx with ⟨c, _, rfl⟩
  exact catProb_le_one h d c

/-- A pipeline that was fitted (by `train` or anything equivalent) on a
non-empty collection whose labels all lie in the taxonomy. -/
def trainedFrom (p : Pipe) : Prop :=
  ∃ data : List (String × String),
    data ≠ [] ∧ (∀ x ∈ data, x.2 ∈ CATEGORIES) ∧ p = fitPipe data

theorem fitPipe_classes_subset {data : List (String × String)}
    (h : ∀ x ∈ data, x.2 ∈ CATEGORIES) :
    ∀ c ∈ (fitPipe data).classes, c ∈ CATEGORIES := by
  intro c hc
  rcases List.mem_map.1 (mem_uniqueFirst.1 hc) with ⟨x, hx, rfl⟩
  exact h x hx

theorem fitPipe_classes_ne {data : List (String × String)} (h : data ≠ []) :
    (fitPipe data).classes ≠ [] := by
  cases data with
  | nil => exact absurd rfl h
  | cons x xs =>
    have hx : x.2 ∈ (x :: xs).map (fun e => e.2) :=
      List.mem_map_of_mem _ (List.mem_cons_self _ _)
    exact List.ne_nil_of_mem (mem_uniqueFirst.2 hx)

theorem trainedFrom_classes {p : Pipe} (h : trainedFrom p) :
    p.classes ≠ [] ∧ ∀ c ∈ p.classes, c ∈ CATEGORIES := by
  obtain ⟨data, hne, hsub, rfl⟩ := h
  exact ⟨fitPipe_classes_ne hne, fitPipe_classes_subset hsub⟩

theorem trainedFrom_defaultPipe : trainedFrom defaultPipe :=
  ⟨TRAINING_DATA.take (trainSize TRAINING_DATA.length), by decide, by decide, rfl⟩

/-! ### Claim C5 -/

/-- Claim C5: from any reachable state (in-memory and on-disk models, if
present, were fitted on non-empty taxonomy-labelled data, and a cold start
does not face a corrupt artifact), `predict` succeeds for every description,
and its category is a member of `get_categories()` while its confidence lies
in [0, 1]. -/
theorem C5_predict_invariant (s : CatState) (d : String)
    (hp : ∀ p, s.pipeline = some p → trainedFrom p)
    (hd : ∀ p, s.disk = DiskState.saved p → trainedFrom p)
    (hcold : s.pipeline = none → s.disk ≠ DiskState.corrupt) :
    (predict s d).isOk = true ∧
    ∀ r, predict s d = Except.ok r →
      r.2.1 ∈ get_categories ∧ 0 ≤ r.2.2 ∧ r.2.2 ≤ 1 := by
  obtain ⟨pl, dk⟩ := s
  cases pl with
  | some p =>
    have hc := trainedFrom_classes (hp p rfl)
    refine ⟨rfl, fun r hr => ?_⟩
    have hev : predict ⟨some p, dk⟩ d =
        Except.ok (⟨some p, dk⟩, (pipePredict p d, pipeMaxProba p d)) := rfl
    rw [hev] at hr
    injection hr with h1
    rw [← h1]
    exact ⟨hc.2 _ (pipePredict_mem hc.1 d), pipeMaxProba_nonneg p d,
      pipeMaxProba_le_one hc.1 d⟩
  | none =>
    cases dk with
    | missing =>
      have hc := trainedFrom_classes trainedFrom_defaultPipe
      refine ⟨rfl, fun r hr => ?_⟩
      have hev : predict ⟨none, DiskState.missing⟩ d =
          Except.ok (⟨some defaultPipe, DiskState.saved defaultPipe⟩,
            (pipePredict defaultPipe d, pipeMaxProba defaultPipe d)) := rfl
      rw [hev] at hr
      injection hr with h1
      rw [← h1]
      exact ⟨hc.2 _ (pipePredict_mem hc.1 d), pipeMaxProba_nonneg defaultPipe d,
        pipeMaxProba_le_one hc.1 d⟩
    | corrupt => exact absurd rfl (hcold rfl)
    | saved p =>
      have hc := trainedFrom_classes (hd p rfl)
      refine ⟨rfl, fun r hr => ?_⟩
      have hev : predict ⟨none, DiskState.saved p⟩ d =
          Except.ok (⟨some p, DiskState.saved p⟩,
            (pipePredict p d, pipeMaxProba p d)) := rfl
      rw [hev] at hr
      injection hr with h1
      rw [← h1]
      exact ⟨hc.2 _ (pipePredict_mem hc.1 d), pipeMaxProba_nonneg p d,
        pipeMaxProba_le_one hc.1 d⟩

/-- Claim C5, witness: a model fitted on one "Food" example classifies
"Starbucks coffee" into the taxonomy with a confidence in [0, 1]. -/
theorem C5_predict_invariant_witness :
    pipePredict (fitPipe [("Starbucks coffee", "Food")]) "Starbucks coffee" ∈
      get_categories ∧
    0 ≤ pipeMaxProba (fitPipe [("Starbucks coffee", "Food")]) "Starbucks coffee" ∧
    pipeMaxProba (fitPipe [("Starbucks coffee", "Food")]) "Starbucks coffee" ≤ 1 :=
  (C5_predict_invariant
      ⟨some (fitPipe [("Starbucks coffee", "Food")]), DiskState.missing⟩
      "Starbucks coffee"
      (fun p hp => by
        injection hp with h1
        exact h1 ▸ ⟨[("Starbucks coffee", "Food")], by decide, by decide, rfl⟩)
      (fun p hp => nomatch hp)
      (fun h => nomatch h)).2 _ rfl

/-! ### Claim C6 -/

/-- Claim C6: persistence round-trips exactly — after a successful `train`,
running `save_model` then `load_model` succeeds and leaves a state whose
`predict(d)` returns exactly the same (category, confidence) pair as
`predict(d)` on the pre-save in-memory model, for every `d`. -/
theorem C6_roundtrip (s : CatState) (td : List (String × String)) (s1 : CatState)
    (h : train s (some td) = Except.ok s1) (d : String) :
    s1.pipeline.isSome = true ∧
    ∀ p, s1.pipeline = some p →
      save_model s1 = Except.ok ⟨some p, DiskState.saved p⟩ ∧
      load_model ⟨some p, DiskState.saved p⟩ =
        Except.ok (⟨some p, DiskState.saved p⟩, true) ∧
      predict ⟨some p, DiskState.saved p⟩ d =
        Except.ok (⟨some p, DiskState.saved p⟩, (pipePredict p d, pipeMaxProba p d)) ∧
      predict s1 d = Except.ok (s1, (pipePredict p d, pipeMaxProba p d)) := by
  obtain ⟨pl, dk⟩ := s
  rw [train_eq] at h
  split at h
  · exact absurd h (by simp)
  · split at h
    · injection h with h1
      subst h1
      refine ⟨rfl, fun p hp => ?_⟩
      injection hp with h2
      subst h2
      exact ⟨rfl, rfl, rfl, rfl⟩
    · exact absurd h (by simp)

/-- Claim C6, witness: train on two examples, save, load, and predict
"lunch" — the pre-save and post-roundtrip predictions coincide. -/
theorem C6_roundtrip_witness :
    save_model ⟨some (fitPipe [("Starbucks coffee", "Food")]), DiskState.missing⟩ =
      Except.ok ⟨some (fitPipe [("Starbucks coffee", "Food")]),
        DiskState.saved (fitPipe [("Starbucks coffee", "Food")])⟩ ∧
    load_model ⟨some (fitPipe [("Starbucks coffee", "Food")]),
        DiskState.saved (fitPipe [("Starbucks coffee", "Food")])⟩ =
      Except.ok (⟨some (fitPipe [("Starbucks coffee", "Food")]),
        DiskState.saved (fitPipe [("Starbucks coffee", "Food")])⟩, true) ∧
    predict ⟨some (fitPipe [("Starbucks coffee", "Food")]),
        DiskState.saved (fitPipe [("Starbucks coffee", "Food")])⟩ "lunch" =
      Except.ok (⟨some (fitPipe [("Starbucks coffee", "Food")]),
        DiskState.saved (fitPipe [("Starbucks coffee", "Food")])⟩,
        (pipePredict (fitPipe [("Starbucks coffee", "Food")]) "lunch",
         pipeMaxProba (fitPipe [("Starbucks coffee", "Food")]) "lunch")) ∧
    predict ⟨some (fitPipe [("Starbucks coffee", "Food")]), DiskState.missing⟩ "lunch" =
      Except.ok (⟨some (fitPipe [("Starbucks coffee", "Food")]), DiskState.missing⟩,
        (pipePredict (fitPipe [("Starbucks coffee", "Food")]) "lunch",
         pipeMaxProba (fitPipe [("Starbucks coffee", "Food")]) "lunch")) :=
  (C6_roundtrip ⟨none, DiskState.missing⟩
      [("Starbucks coffee", "Food"), ("uber ride downtown", "Transport")]
      ⟨some (fitPipe [("Starbucks coffee", "Food")]), DiskState.missing⟩ rfl
      "lunch").2 (fitPipe [("Starbucks coffee", "Food")]) rfl

/-! ### Trend facts for Claim C3 -/

theorem trendLabel_inc (x : ℚ) : trendLabel x = "increasing" ↔ 10 < x := by
  unfold trendLabel
  split_ifs with h1 h2
  · exact iff_of_true rfl h1
  · exact iff_of_false (by decide) h1
  · exact iff_of_false (by decide) h1

theorem trendLabel_dec (x : ℚ) : trendLabel x = "decreasing" ↔ x < -10 := by
  unfold trendLabel
  split_ifs with h1 h2
  · exact iff_of_false (by decide) (by intro hc; linarith)
  · exact iff_of_true rfl h2
  · exact iff_of_false (by decide) h2

theorem trendLabel_stable (x : ℚ) : trendLabel x = "stable" ↔ (-10 ≤ x ∧ x ≤ 10) := by
  unfold trendLabel
  split_ifs with h1 h2
  · exact iff_of_false (by decide) (fun hc => absurd h1 (not_lt.2 hc.2))
  · exact iff_of_false (by decide) (fun hc => absurd h2 (not_lt.2 hc.1))
  · exact iff_of_true rfl ⟨le_of_not_lt h2, le_of_not_lt h1⟩

theorem find?_filterMap_entry (g : String → Option TrendEntry)
    (hcat : ∀ c e, g c = some e → e.category = c)
    {l : List String} {c : String} {ec : TrendEntry}
    (hn : l.Nodup) (hc : c ∈ l) (hg : g c = some ec) :
    (l.filterMap g).find? (fun e => e.category == c) = some ec := by
  induction l with
  | nil => simp at hc
  | cons x xs ih =>
    rcases List.mem_cons.1 hc with rfl | hmem
    · rw [List.filterMap_cons_some hg]
      rw [List.find?_cons_of_pos _ (by simp [hcat c ec hg])]
    · have hx : x ≠ c := by
        intro he
        subst he
        exact (List.nodup_cons.1 hn).1 hmem
      rcases hgx : g x with _ | ex
      · rw [List.filterMap_cons_none hgx]
        exact ih (List.nodup_cons.1 hn).2 hmem
      · rw [List.filterMap_cons_some hgx]
        rw [List.find?_cons_of_neg _ (by simp [hcat x ex hgx, hx])]
        exact ih (List.nodup_cons.1 hn).2 hmem

theorem monthTotal_pos {l : List Transaction} (hpos : ∀ t ∈ l, 0 < t.amount)
    {m : ℤ} (hm : m ∈ l.map (fun t => monthIdx t.transaction_date)) :
    0 < monthTotal l m := by
  unfold monthTotal amountsOf
  apply List.sum_pos
  · intro q hq
    rcases List.mem_map.1 hq with ⟨t, ht, rfl⟩
    exact hpos t (List.mem_filter.1 ht).1
  · rcases List.mem_map.1 hm with ⟨t, ht, rfl⟩
    have hmem : t ∈ l.filter
        (fun t1 => monthIdx t1.transaction_date == monthIdx t.transaction_date) :=
      List.mem_filter.2 ⟨ht, by simp⟩
    exact List.ne_nil_of_mem (List.mem_map_of_mem _ hmem)

theorem firstMonthTotal_pos {l : List Transaction} (hne : l ≠ [])
    (hpos : ∀ t ∈ l, 0 < t.amount) : 0 < firstMonthTotal l := by
  unfold firstMonthTotal
  apply monthTotal_pos hpos
  have hmne : l.map (fun t => monthIdx t.transaction_date) ≠ [] := by
    cases l with
    | nil => exact absurd rfl hne
    | cons t ts => simp
  have hdne : (l.map (fun t => monthIdx t.transaction_date)).dedup ≠ [] := by
    intro hd
    exact hmne ((List.dedup_eq_nil _).1 hd)
  exact List.mem_dedup.1 (listMin_mem hdne)

theorem codePct_eq_specPct {txs : List Transaction} {c : String}
    (hne : catData txs c ≠ []) (hpos : ∀ t ∈ catData txs c, 0 < t.amount) :
    codePct txs c = specPct txs c := by
  unfold codePct
  rw [if_pos (firstMonthTotal_pos hne hpos)]

/-! ### Claim C3 -/

/-- Claim C3, amended: per category with at least two distinct calendar
months in the window (for schema-valid, positive amounts),
`get_spending_trends` reports one entry whose percentage_change is
(last_month − first_month) / first_month × 100 ROUNDED TO TWO DECIMAL
PLACES, and whose label is computed from the UNROUNDED value with strict
thresholds: "increasing" iff it exceeds 10, "decreasing" iff it is below
−10, "stable" otherwise (so exactly ±10 is "stable"); categories with fewer
than two distinct months have no entry. -/
theorem C3_amended (today : Date) (db : List Transaction) (uid : ℤ) (months : ℕ)
    (c : String) (hpos : ∀ t ∈ db, 0 < t.amount) :
    ((get_spending_trends today db uid months).find? (fun e => e.category == c) =
      if c ∈ (db.filter (qualifiesTrends today uid months)).map (·.category) ∧
          2 ≤ numMonths (catData (db.filter (qualifiesTrends today uid months)) c) then
        some { category := c
               monthly_average :=
                 pyRound2 (avgMonthly (catData (db.filter (qualifiesTrends today uid months)) c))
               trend := trendLabel (specPct (db.filter (qualifiesTrends today uid months)) c)
               percentage_change :=
                 pyRound2 (specPct (db.filter (qualifiesTrends today uid months)) c)
               last_month_amount :=
                 pyRound2 (lastMonthTotal (catData (db.filter (qualifiesTrends today uid months)) c)) }
      else none) ∧
    (trendLabel (specPct (db.filter (qualifiesTrends today uid months)) c) = "increasing" ↔
      10 < specPct (db.filter (qualifiesTrends today uid months)) c) ∧
    (trendLabel (specPct (db.filter (qualifiesTrends today uid months)) c) = "decreasing" ↔
      specPct (db.filter (qualifiesTrends today uid months)) c < -10) ∧
    (trendLabel (specPct (db.filter (qualifiesTrends today uid months)) c) = "stable" ↔
      (-10 ≤ specPct (db.filter (qualifiesTrends today uid months)) c ∧
        specPct (db.filter (qualifiesTrends today uid months)) c ≤ 10)) := by
  refine ⟨?_, trendLabel_inc _, trendLabel_dec _, trendLabel_stable _⟩
  unfold get_spending_trends
  by_cases hcm : c ∈ (db.filter (qualifiesTrends today uid months)).map (·.category) ∧
      2 ≤ numMonths (catData (db.filter (qualifiesTrends today uid months)) c)
  · rw [if_pos hcm]
    have htne : db.filter (qualifiesTrends today uid months) ≠ [] := by
      rcases List.mem_map.1 hcm.1 with ⟨t, ht, _⟩
      exact List.ne_nil_of_mem ht
    have hE : (db.filter (qualifiesTrends today uid months)).isEmpty = false := by
      simpa [List.isEmpty_iff] using htne
    rw [if_neg (by simp [hE])]
    have hcne : catData (db.filter (qualifiesTrends today uid months)) c ≠ [] := by
      rcases List.mem_map.1 hcm.1 with ⟨t, ht, rfl⟩
      exact List.ne_nil_of_mem (List.mem_filter.2 ⟨ht, by simp⟩)
    have hcpos : ∀ t ∈ catData (db.filter (qualifiesTrends today uid months)) c,
        0 < t.amount := by
      intro t ht
      exact hpos t (List.mem_filter.1 (List.mem_filter.1 ht).1).1
    apply find?_filterMap_entry
    · intro c1 e hg
      by_cases h2 : 2 ≤ numMonths (catData (db.filter (qualifiesTrends today uid months)) c1)
      · rw [if_pos h2] at hg
        injection hg with hgg
        rw [← hgg]
      · rw [if_neg h2] at hg
        exact absurd hg (by simp)
    · exact uniqueFirst_nodup _
    · exact mem_uniqueFirst.2 hcm.1
    · rw [if_pos hcm.2, codePct_eq_specPct hcne hcpos]
  · rw [if_neg hcm]
    by_cases hE : (db.filter (qualifiesTrends today uid months)).isEmpty
    · rw [if_pos hE]
      rfl
    · rw [if_neg hE]
      apply List.find?_eq_none.2
      intro e he hpred
      rcases List.mem_filterMap.1 he with ⟨c1, hc1, hg⟩
      by_cases h2 : 2 ≤ numMonths (catData (db.filter (qualifiesTrends today uid months)) c1)
      · rw [if_pos h2] at hg
        injection hg with hgg
        have hcat : e.category = c1 := by rw [← hgg]
        have hcc : c1 = c := by
          have hec : e.category = c := by simpa using hpred
          rw [hcat] at hec
          exact hec
        subst hcc
        exact hcm ⟨mem_uniqueFirst.1 hc1, h2⟩
      · rw [if_neg h2] at hg
        exact absurd hg (by simp)

/-- Two qualifying expenses of one user and category in two consecutive
months with bucket totals 3 and 4, whose percentage change 100/3 is not
representable in two decimal places. -/
def txsC3 : List Transaction :=
  [⟨7, 3, "expense", "Food", ⟨2026, 9, 10⟩⟩,
   ⟨7, 4, "expense", "Food", ⟨2026, 10, 5⟩⟩]

set_option maxHeartbeats 1600000 in
/-- Claim C3, counterexample: on `txsC3` the percentage-change formula gives
100/3 ≈ 33.333, but the reported `percentage_change` is 33.33 — the code
rounds the reported value to two decimal places, so the claimed equality
with the raw formula fails. -/
theorem C3_counterexample :
    (get_spending_trends ⟨2026, 10, 12⟩ txsC3 7 6).map (fun e => e.percentage_change) =
      [3333/100] ∧
    specPct (txsC3.filter (qualifiesTrends ⟨2026, 10, 12⟩ 7 6)) "Food" = 100/3 ∧
    ((3333/100 : ℚ) ≠ 100/3) := by
  refine ⟨?_, ?_, by norm_num⟩
  · norm_num [get_spending_trends, txsC3, qualifiesTrends, uniqueFirst, uniqAux,
      codePct, specPct, trendLabel, avgMonthly, catData, amountsOf, monthsOf,
      numMonths, monthTotal, firstMonthTotal, lastMonthTotal, listMin, listMax,
      pyRound2, monthIdx, toDays, List.filter_cons, List.filter_nil,
      List.filterMap_cons, List.filterMap_nil, List.dedup]
    unfold Int.fract
    norm_num
  · norm_num [txsC3, qualifiesTrends, specPct, catData, amountsOf, monthsOf,
      numMonths, monthTotal, firstMonthTotal, lastMonthTotal, listMin, listMax,
      monthIdx, toDays, List.filter_cons, List.filter_nil, List.dedup]

set_option maxHeartbeats 1600000 in
/-- Claim C3, witness: the amended description applied to `txsC3` — the
"Food" entry carries the rounded percentage change 33.33 and the label
"increasing" computed from the unrounded 100/3. -/
theorem C3_amended_witness :
    (∀ t ∈ txsC3, 0 < t.amount) ∧
    (get_spending_trends ⟨2026, 10, 12⟩ txsC3 7 6).find? (fun e => e.category == "Food") =
      some { category := "Food"
             monthly_average := 7/2
             trend := "increasing"
             percentage_change := 3333/100
             last_month_amount := 4 } := by
  have hp : ∀ t ∈ txsC3, 0 < t.amount := by
    intro t ht
    simp only [txsC3, List.mem_cons, List.not_mem_nil, or_false] at ht
    rcases ht with rfl | rfl <;> norm_num
  refine ⟨hp, ?_⟩
  rw [(C3_amended ⟨2026, 10, 12⟩ txsC3 7 6 "Food" hp).1, if_pos ⟨by decide, by decide⟩]
  norm_num [txsC3, qualifiesTrends, specPct, trendLabel, avgMonthly, catData,
    amountsOf, monthsOf, numMonths, monthTotal, firstMonthTotal, lastMonthTotal,
    listMin, listMax, pyRound2, monthIdx, toDays, List.filter_cons,
    List.filter_nil, List.dedup]

end AIFinance
